import Mathlib

/-!
# Nimathi reward-points / activity-tracking core: a shallow embedding

This file embeds the reward-points accounting logic of the Nimathi wellness
app: the client-side point awards (`MeditationScreen.completeMeditation`,
`JournalingScreen.saveEntry`, `DrawingCanvas.saveDrawing`), the reward-tier
lookup of `Dashboard.tsx`, and the server handlers of
`supabase/functions/server/nimathi-server.tsx` (signup, `POST /activity`,
`POST /stress-level`, `PUT /user`) over an association-list model of the
key-value store.  JavaScript numbers that the code only ever uses as integers
are modelled as `Int`/`Nat`; instants are integer milliseconds; possibly
absent JSON fields are `Option`s and the `x || d` defaulting idiom is made
explicit.  Theorems about these definitions follow the definitions.
-/

namespace Nimathi

/-! Section: client-side data model (the `App.tsx` `User` type). -/

/-- The client `User` record (the fields the accounting logic touches). -/
structure ClientUser where
  id : String
  petName : String
  email : String
  rewardPoints : Int
  deriving Repr, DecidableEq

/-! Section: point calculators. -/

/-- Meditation award, `MeditationScreen.completeMeditation`:
`Math.floor(customTimer[0] * 2)` — "2 points per minute".  The timer slider
yields whole minutes, so the floor of `2 * d` is `2 * d`. -/
def meditationPoints (durationMinutes : Nat) : Nat :=
  durationMinutes * 2

/-- Journaling award, `JournalingScreen.saveEntry`:
`Math.min(20, Math.floor(currentEntry.wordCount / 25) + 5)`. -/
def journalingPoints (wordCount : Nat) : Nat :=
  min 20 (wordCount / 25 + 5)

/-- Drawing award, `DrawingCanvas.saveDrawing`:
`const points = 15; // Fixed points for completing a drawing session`. -/
def drawingPoints : Nat := 15

/-- Server-side per-activity award, `POST /activity/:userId`
(nimathi-server.tsx:295–297): a flat amount per activity `type`, with `5`
for any unrecognized type. -/
def serverPointsEarned (ty : String) : Int :=
  if ty = "meditation" then 10
  else if ty = "drawing" then 15
  else if ty = "journaling" then 20
  else 5

/-! Section: client-side flows.

Each flow is modelled as the `User` value handed to `onUpdateUser`
(`none` when `onUpdateUser` is never called).  Remote-call outcomes are
explicit `Bool` parameters. -/

/-- Client flow `MeditationScreen.completeMeditation` (unnamed/part_001:109-165), after a
session of `durationMinutes` minutes, given whether the
`api.recordActivity` call succeeded.  The `try` branch and the `catch`
branch compute and apply the same award, so the two arms coincide. -/
def completeMeditation (user : ClientUser) (durationMinutes : Nat)
    (remoteOk : Bool) : ClientUser :=
  if remoteOk then
    { user with rewardPoints := user.rewardPoints + (meditationPoints durationMinutes : Int) }
  else
    -- catch branch: "Still award points locally even if backend fails"
    { user with rewardPoints := user.rewardPoints + (meditationPoints durationMinutes : Int) }

/-- Client flow `JournalingScreen.saveEntry` (JournalingScreen.tsx:180-233), point-award
part: `createEntryOk` is whether `api.createJournalEntry` returned without
`response.error` (on error the function returns early, before any award);
`recordOk` is whether `api.recordActivity` returned without throwing (a
throw lands in the `catch`, which shows an error toast and awards
nothing).  Only when both succeed is the award applied. -/
def saveEntry (user : ClientUser) (wordCount : Nat)
    (createEntryOk recordOk : Bool) : Option ClientUser :=
  if !createEntryOk then none
  else if !recordOk then none
  else some { user with rewardPoints := user.rewardPoints + (journalingPoints wordCount : Int) }

/-- Client flow `DrawingCanvas.saveDrawing` (DrawingCanvas.tsx:173-198): a purely local
award of the fixed 15 points; no remote call is involved. -/
def saveDrawing (user : ClientUser) : ClientUser :=
  { user with rewardPoints := user.rewardPoints + (drawingPoints : Int) }

/-! Section: reward tiers (Dashboard.tsx:54-61). -/

/-- One entry of the `rewardTiers` array; `max := none` models the literal
`Infinity` upper bound of the top tier. -/
structure RewardTier where
  min : Int
  max : Option Int
  tier : String
  deriving Repr, DecidableEq

/-- The `rewardTiers` array. -/
def rewardTiers : List RewardTier :=
  [ { min := 0,   max := some 49,  tier := "Bronze" },
    { min := 50,  max := some 149, tier := "Silver" },
    { min := 150, max := some 299, tier := "Gold" },
    { min := 300, max := none,     tier := "Diamond" } ]

/-- Test `points <= tier.max`, where `max = none` is `Infinity` (always true). -/
def leMax (p : Int) (mx : Option Int) : Bool :=
  match mx with
  | some m => decide (p ≤ m)
  | none => true

/-- Tier lookup `rewardTiers.find(tier => points >= tier.min && points <=
tier.max) || rewardTiers[0]` (Dashboard.tsx:61). -/
def currentTier (p : Int) : RewardTier :=
  match rewardTiers.find? (fun t => decide (t.min ≤ p) && leMax p t.max) with
  | some t => t
  | none => { min := 0, max := some 49, tier := "Bronze" }

/-- The "`N` to next tier" figure displayed on the dashboard
(Dashboard.tsx:134–136): `none` models the `Max tier!` branch taken when
`currentTier.max === Infinity`, otherwise `currentTier.max - rewardPoints`. -/
def pointsToNextTierDisplay (p : Int) : Option Int :=
  match (currentTier p).max with
  | none => none
  | some m => some (m - p)

/-! Section: server-side data model. -/

/-- One element of a stored `stressLevels` array
(nimathi-server.tsx:333–337); `timestamp` is the instant in milliseconds. -/
structure StressEntry where
  level : Int
  date : String
  timestamp : Int
  deriving Repr, DecidableEq

/-- The stored user record (`user:<id>` key).  `rewardPoints` and
`stressLevels` are `Option`s because the handlers guard them with
`userData.rewardPoints || 0` and `userData.stressLevels || []`. -/
structure UserData where
  id : String
  petName : String
  email : String
  avatar : String
  rewardPoints : Option Int
  stressLevels : Option (List StressEntry)
  createdAt : Int
  deriving Repr, DecidableEq

/-- Defaulting `x || 0` on a possibly absent numeric field: an absent field gives `0`;
for a present integer `n`, `n || 0 = n` (`0 || 0` is `0`). -/
def jsOrZero : Option Int → Int
  | none => 0
  | some n => n

/-- Defaulting `xs || []` on a possibly absent array field. -/
def jsOrNil : Option (List StressEntry) → List StressEntry
  | none => []
  | some l => l

/-- Defaulting `s || d` on a possibly absent string: absent and the empty string are
falsy and give the default. -/
def jsOrStr (s : Option String) (d : String) : String :=
  match s with
  | none => d
  | some v => if v = "" then d else v

/-- The stored activity record (`activity:<userId>:<id>` key), the fields
the handler itself writes (`id`, `userId`, `createdAt`) plus the `type`
field of the posted `activityData`, which is the only posted field the
accounting reads. -/
structure Activity where
  id : String
  userId : String
  type : String
  createdAt : Int
  deriving Repr, DecidableEq

/-- The key-value store slices the handlers touch, as association lists
keyed by the literal kv keys; the first binding for a key wins. -/
structure ServerState where
  users : List (String × UserData)
  activities : List (String × Activity)
  deriving Repr, DecidableEq

/-- Lookup, `kv.get`. -/
def kvGet {α : Type} (store : List (String × α)) (k : String) : Option α :=
  store.lookup k

/-- Update, `kv.set`: bind `k` to `v`, shadowing any previous binding. -/
def kvSet {α : Type} (store : List (String × α)) (k : String) (v : α) :
    List (String × α) :=
  (k, v) :: store.filter (fun e => e.1 != k)

/-- Profile created by `POST /auth/signup` (nimathi-server.tsx:60–68). -/
def signupUserData (userId petName email : String) (now : Int) : UserData :=
  { id := userId
    petName := petName
    email := email
    avatar := "https://api.dicebear.com/7.x/avataaars/svg?seed=" ++ petName
    rewardPoints := some 0
    stressLevels := some []
    createdAt := now }

/-! Section: the activity endpoint, POST /activity/:userId (nimathi-server.tsx:267-309).

The handler's `try` block stores the activity, then (when the profile
exists) declares `const pointsEarned` *inside* the `if (userData)` block,
adds it to the profile and stores the profile back.  The `return` statement
that builds the success JSON sits outside that block, so under JavaScript
block scoping the name `pointsEarned` is not bound there; evaluating
`pointsEarned || 5` throws a `ReferenceError`, which the `catch` turns into
the 500 response.  We model identifier resolution at that statement
explicitly: the numeric `const` bindings in scope there, and a lookup that
fails when the name is absent. -/

/-- A thrown JavaScript error, as far as the `catch` clause can see. -/
inductive JsExc where
  | referenceError
  deriving Repr, DecidableEq

/-- The numeric `const` bindings in scope at the handler's `return`
statement (nimathi-server.tsx:303).  `pointsEarned` is declared at line 295
inside the `if (userData) { ... }` block and is block-scoped, so it is not
among them (no other numeric binding is in scope there either). -/
def activityReturnScope : List (String × Int) := []

/-- Resolve an identifier against the bindings in scope; an unbound name
throws a `ReferenceError`. -/
def lookupVar (env : List (String × Int)) (x : String) : Except JsExc Int :=
  match env.lookup x with
  | some v => Except.ok v
  | none => Except.error JsExc.referenceError

/-- Body of the success JSON `{ activity, pointsEarned }`. -/
structure ActivityResponseBody where
  activity : Activity
  pointsEarned : Int
  deriving Repr, DecidableEq

/-- Outcome of the activity handler (past the auth guards): the 200
success JSON, or the 500 `Internal server error while creating activity`
response produced by the `catch` clause. -/
inductive ActivityResult where
  | success (body : ActivityResponseBody)
  | internalError
  deriving Repr, DecidableEq

/-- The `try` block of `POST /activity/:userId`, for an authenticated
request (`supabase.auth.getUser` succeeded and matched `userId`), with
`now` the request instant (used for `Date.now()` in the activity id and for
`createdAt`).  Returns the state after the block's `kv.set` effects, and
either the value of the `return` expression or the exception evaluating it
threw.  Note the state mutations survive the exception: the `kv.set` calls
have already completed when the `return` expression is evaluated. -/
def postActivityTry (st : ServerState) (userId ty : String) (now : Int) :
    ServerState × Except JsExc ActivityResponseBody :=
  let activityId := userId ++ "_" ++ toString now
  let activity : Activity :=
    { id := activityId, userId := userId, type := ty, createdAt := now }
  let acts1 := kvSet st.activities ("activity:" ++ userId ++ ":" ++ activityId) activity
  let st1 : ServerState := { st with activities := acts1 }
  let st2 : ServerState :=
    match kvGet st1.users ("user:" ++ userId) with
    | some userData =>
        let pointsEarned := serverPointsEarned ty
        let userData' :=
          { userData with rewardPoints := some (jsOrZero userData.rewardPoints + pointsEarned) }
        { st1 with users := kvSet st1.users ("user:" ++ userId) userData' }
    | none => st1
  (st2,
    (lookupVar activityReturnScope "pointsEarned").map
      (fun p => { activity := activity, pointsEarned := if p = 0 then 5 else p }))

/-- Handler `POST /activity/:userId`, authenticated: run the `try` block; a thrown
exception falls into the `catch`, which returns the 500 response (the store
keeps whatever the `try` block already wrote). -/
def postActivity (st : ServerState) (userId ty : String) (now : Int) :
    ServerState × ActivityResult :=
  match postActivityTry st userId ty now with
  | (st', Except.ok body) => (st', ActivityResult.success body)
  | (st', Except.error _) => (st', ActivityResult.internalError)

/-! Section: the stress-level endpoint, POST /stress-level/:userId (nimathi-server.tsx:312-357). -/

/-- Thirty days in milliseconds: `thirtyDaysAgo.setDate(getDate() - 30)`
moves the clock back 30 calendar days, i.e. `30 * 86400000` ms (no
daylight-saving jump in UTC). -/
def msPerDay : Int := 86400000

/-- The append step (nimathi-server.tsx:333–340): build
`{ level, date: date || today, timestamp: now }` and push it onto
`userData.stressLevels || []`.  `today` is the request date rendered as
`new Date().toISOString().split('T')[0]`. -/
def appendStressEntry (levels : Option (List StressEntry)) (level : Int)
    (dateParam : Option String) (today : String) (now : Int) :
    List StressEntry :=
  jsOrNil levels ++ [{ level := level, date := jsOrStr dateParam today, timestamp := now }]

/-- The retention step (nimathi-server.tsx:342–347): keep only the entries
with `new Date(entry.timestamp) > thirtyDaysAgo`, i.e. timestamp *strictly*
greater than `now - 30` days. -/
def pruneStressLevels (levels : List StressEntry) (now : Int) :
    List StressEntry :=
  levels.filter (fun e => decide (now - 30 * msPerDay < e.timestamp))

/-- Outcome of the stress-level handler (past the auth guards). -/
inductive StressResult where
  | ok (stressLevels : List StressEntry)
  | notFound
  deriving Repr, DecidableEq

/-- Handler `POST /stress-level/:userId`, authenticated: look the profile up,
append the new entry, prune, store the profile back and return the updated
sequence. -/
def postStressLevel (st : ServerState) (userId : String) (level : Int)
    (dateParam : Option String) (today : String) (now : Int) :
    ServerState × StressResult :=
  match kvGet st.users ("user:" ++ userId) with
  | none => (st, StressResult.notFound)
  | some userData =>
      let appended := appendStressEntry userData.stressLevels level dateParam today now
      let pruned := pruneStressLevels appended now
      let userData' := { userData with stressLevels := some pruned }
      ({ st with users := kvSet st.users ("user:" ++ userId) userData' },
        StressResult.ok pruned)

/-! Section: the profile-update endpoint, PUT /user/:userId (nimathi-server.tsx:113-148).

The stored profile here is an arbitrary JSON object (the handler copies
every field it does not name), so we model it as a partial map from field
names to values of an arbitrary value type. -/

/-- A JSON object over value type `α`: a partial map from field names. -/
def JsObj (α : Type) : Type := String → Option α

/-- Merge `{ ...existingData, ...updates, updatedAt: nowIso }`
(nimathi-server.tsx:134–138): field-wise, the trailing `updatedAt` literal
wins, then a field present in `updates`, then the existing field. -/
def putUserMerge {α : Type} (existingData updates : JsObj α) (nowIso : α) :
    JsObj α :=
  fun k =>
    if k = "updatedAt" then some nowIso
    else
      match updates k with
      | some v => some v
      | none => existingData k

/-- Handler `PUT /user/:userId`, authenticated: `false` is the 404 branch
(`existingData` missing), `true` the success branch after storing the
merged object. -/
def putUser {α : Type} (store : List (String × JsObj α)) (userId : String)
    (updates : JsObj α) (nowIso : α) : List (String × JsObj α) × Bool :=
  match kvGet store ("user:" ++ userId) with
  | none => (store, false)
  | some existingData =>
      (kvSet store ("user:" ++ userId) (putUserMerge existingData updates nowIso),
        true)

/-! Section: helper lemmas and sample fixtures. -/

/-- Reading back the key just written returns the written value. -/
theorem kvGet_kvSet_self {α : Type} (store : List (String × α)) (k : String)
    (v : α) : kvGet (kvSet store k v) k = some v := by
  simp [kvGet, kvSet, List.lookup]

/-- A sample stored profile holding 40 reward points (the profile of the
end-to-end scenario). -/
def sampleUser : UserData :=
  { id := "u1", petName := "Mo", email := "mo@example.com", avatar := "a",
    rewardPoints := some 40, stressLevels := some [], createdAt := 0 }

/-- A sample server state holding only `sampleUser`. -/
def sampleStore : ServerState :=
  { users := [("user:u1", sampleUser)], activities := [] }

/-- A sample client-side user holding 40 reward points. -/
def sampleClientUser : ClientUser :=
  { id := "u1", petName := "Mo", email := "mo@example.com", rewardPoints := 40 }

/-- The activity handler stores the profile back with the per-type flat
award added (the state part of the handler, for an existing profile). -/
theorem postActivity_store_user (st : ServerState) (userId ty : String)
    (now : Int) (userData : UserData)
    (h : kvGet st.users ("user:" ++ userId) = some userData) :
    kvGet (postActivity st userId ty now).1.users ("user:" ++ userId)
      = some { userData with
          rewardPoints := some (jsOrZero userData.rewardPoints + serverPointsEarned ty) } := by
  simp [postActivity, postActivityTry, lookupVar, activityReturnScope,
    Except.map, h, kvGet_kvSet_self]

/-- The activity handler always answers with the 500 response: the
`return` expression evaluates the out-of-scope `pointsEarned`. -/
theorem postActivity_snd (st : ServerState) (userId ty : String) (now : Int) :
    (postActivity st userId ty now).2 = ActivityResult.internalError := by
  simp only [postActivity, postActivityTry, lookupVar, activityReturnScope,
    List.lookup, Except.map]

/-- The activity handler stores the activity record. -/
theorem postActivity_store_activity (st : ServerState) (userId ty : String)
    (now : Int) :
    kvGet (postActivity st userId ty now).1.activities
        ("activity:" ++ userId ++ ":" ++ (userId ++ "_" ++ toString now))
      = some { id := userId ++ "_" ++ toString now, userId := userId,
               type := ty, createdAt := now } := by
  cases h : kvGet st.users ("user:" ++ userId) <;>
    simp [postActivity, postActivityTry, lookupVar, activityReturnScope,
      Except.map, h, kvGet_kvSet_self]

/-! Section: the claims. -/

/-- C1, counterexample.  The claim says the delta the activity-recording
endpoint applies to the persisted profile equals the client-side
`floor(durationMinutes * 2)` award.  At `durationMinutes = 10` the client
award is `20`, but posting a `meditation` activity for the stored profile
with 40 points persists `50`, a delta of `10`, not `20`: the server awards
a flat `10` for meditation regardless of duration. -/
theorem C1_counterexample :
    meditationPoints 10 = 20 ∧
    kvGet (postActivity sampleStore "u1" "meditation" 0).1.users "user:u1"
      = some { sampleUser with rewardPoints := some 50 } ∧
    (50 : Int) ≠ 40 + (meditationPoints 10 : Int) := by
  refine ⟨rfl, ?_, by decide⟩
  decide

/-- C1, amended: completing a `durationMinutes`-minute meditation awards
exactly `floor(durationMinutes * 2) = 2 * durationMinutes` points to the
in-memory user profile (a 10-minute meditation adds 20 points), whether or
not the remote recording succeeds; the activity-recording endpoint applies
a flat delta of `10` for meditation to the persisted profile, independent
of duration. -/
theorem C1_amended_meditation_award (user : ClientUser) (durationMinutes : Nat)
    (remoteOk : Bool) (st : ServerState) (userId : String) (now : Int)
    (userData : UserData)
    (h : kvGet st.users ("user:" ++ userId) = some userData) :
    (completeMeditation user durationMinutes remoteOk).rewardPoints
      = user.rewardPoints + 2 * (durationMinutes : Int) ∧
    kvGet (postActivity st userId "meditation" now).1.users ("user:" ++ userId)
      = some { userData with
          rewardPoints := some (jsOrZero userData.rewardPoints + 10) } := by
  constructor
  · cases remoteOk <;> simp [completeMeditation, meditationPoints] <;> ring
  · simpa [serverPointsEarned] using
      postActivity_store_user st userId "meditation" now userData h

/-- C1, witness for the amended theorem at the end-to-end scenario's
numbers: a 10-minute meditation takes the in-memory profile from 40 to 60
points, while the server takes the persisted profile from 40 to 50. -/
theorem C1_amended_witness :
    (completeMeditation sampleClientUser 10 true).rewardPoints = 40 + 2 * (10 : Int) ∧
    kvGet (postActivity sampleStore "u1" "meditation" 0).1.users "user:u1"
      = some { sampleUser with rewardPoints := some (jsOrZero (some 40) + 10) } :=
  C1_amended_meditation_award sampleClientUser 10 true sampleStore "u1" 0
    sampleUser rfl

/-- C2: for an authorized activity post whose user profile exists, the
handler persists the activity record and the profile with the flat award
added, yet — because the success JSON evaluates `pointsEarned` outside the
`const`'s block — the `return` throws, the `catch` answers with the 500
internal-error response, and the persisted point increment is not rolled
back.  The success body `{ activity, pointsEarned }` is never produced. -/
theorem C2_activity_handler_throws_after_persist (st : ServerState)
    (userId ty : String) (now : Int) (userData : UserData)
    (h : kvGet st.users ("user:" ++ userId) = some userData) :
    (postActivity st userId ty now).2 = ActivityResult.internalError ∧
    kvGet (postActivity st userId ty now).1.users ("user:" ++ userId)
      = some { userData with
          rewardPoints := some (jsOrZero userData.rewardPoints + serverPointsEarned ty) } ∧
    kvGet (postActivity st userId ty now).1.activities
        ("activity:" ++ userId ++ ":" ++ (userId ++ "_" ++ toString now))
      = some { id := userId ++ "_" ++ toString now, userId := userId,
               type := ty, createdAt := now } :=
  ⟨postActivity_snd st userId ty now,
   postActivity_store_user st userId ty now userData h,
   postActivity_store_activity st userId ty now⟩

/-- C2, witness: posting a meditation activity for the sample profile
answers 500 while the persisted profile went from 40 to 50 points and the
activity record was stored. -/
theorem C2_witness :
    (postActivity sampleStore "u1" "meditation" 0).2 = ActivityResult.internalError ∧
    kvGet (postActivity sampleStore "u1" "meditation" 0).1.users ("user:" ++ "u1")
      = some { sampleUser with
          rewardPoints := some (jsOrZero sampleUser.rewardPoints + serverPointsEarned "meditation") } ∧
    kvGet (postActivity sampleStore "u1" "meditation" 0).1.activities
        ("activity:" ++ "u1" ++ ":" ++ ("u1" ++ "_" ++ toString (0 : Int)))
      = some { id := "u1" ++ "_" ++ toString (0 : Int), userId := "u1",
               type := "meditation", createdAt := 0 } :=
  C2_activity_handler_throws_after_persist sampleStore "u1" "meditation" 0
    sampleUser rfl

/-- C8: any activity type other than `meditation`, `drawing` and
`journaling` falls through to the default case of the point computation and
is awarded the fixed minimum of 5 points (the computation is total — no
error path exists). -/
theorem C8_unknown_type_default (ty : String) (h1 : ty ≠ "meditation")
    (h2 : ty ≠ "drawing") (h3 : ty ≠ "journaling") :
    serverPointsEarned ty = 5 := by
  simp [serverPointsEarned, h1, h2, h3]

/-- C8, witness at the unrecognized type `yoga`. -/
theorem C8_witness : serverPointsEarned "yoga" = 5 :=
  C8_unknown_type_default "yoga" (by decide) (by decide) (by decide)

/-- C9: the profile built at signup starts with `rewardPoints = 0` and
`stressLevels = []`, for every signup input. -/
theorem C9_signup_initial_profile (userId petName email : String) (now : Int) :
    (signupUserData userId petName email now).rewardPoints = some 0 ∧
    (signupUserData userId petName email now).stressLevels = some [] :=
  ⟨rfl, rfl⟩

/-- The stress-level handler stores the profile back with the appended and
pruned sequence and touches nothing else. -/
theorem postStressLevel_store_user (st : ServerState) (userId : String)
    (level : Int) (dateParam : Option String) (today : String) (now : Int)
    (userData : UserData)
    (h : kvGet st.users ("user:" ++ userId) = some userData) :
    kvGet (postStressLevel st userId level dateParam today now).1.users
        ("user:" ++ userId)
      = some { userData with
          stressLevels := some (pruneStressLevels
            (appendStressEntry userData.stressLevels level dateParam today now)
            now) } := by
  simp [postStressLevel, h, kvGet_kvSet_self]

/-- C4: the journaling award is `min(20, floor(wordCount / 25) + 5)`:
`wordCount = 0` still yields 5, the cap of 20 is reached at
`wordCount = 375` and holds for every larger word count, and this delta is
exactly the one the journaling completion flow adds to the user's
`rewardPoints`. -/
theorem C4_journaling_award :
    journalingPoints 0 = 5 ∧
    journalingPoints 375 = 20 ∧
    (∀ wordCount, 375 ≤ wordCount → journalingPoints wordCount = 20) ∧
    (∀ user wordCount, saveEntry user wordCount true true
      = some { user with
          rewardPoints := user.rewardPoints + (journalingPoints wordCount : Int) }) := by
  refine ⟨by decide, by decide, ?_, ?_⟩
  · intro wc h
    have h15 : 15 ≤ wc / 25 := Nat.le_div_iff_mul_le (by norm_num) |>.mpr (by omega)
    simp only [journalingPoints]
    omega
  · intro u wc
    rfl

/-- C4, witness: the cap holds at `wordCount = 1000`, and saving a
1000-word entry takes the sample user from 40 to 60 points. -/
theorem C4_witness :
    journalingPoints 1000 = 20 ∧
    saveEntry sampleClientUser 1000 true true
      = some { sampleClientUser with
          rewardPoints := sampleClientUser.rewardPoints + (journalingPoints 1000 : Int) } :=
  ⟨C4_journaling_award.2.2.1 1000 (by decide),
   C4_journaling_award.2.2.2 sampleClientUser 1000⟩

/-- C7, counterexample: for the journaling completion, a remote failure
does *not* leave the point award applied.  When `api.createJournalEntry`
answers with `response.error`, `saveEntry` returns early without awarding
(first conjunct), and when `api.recordActivity` throws, the `catch` awards
nothing (second conjunct): `onUpdateUser` is never called, so the claim
that every activity completion still applies the award on remote failure
is false. -/
theorem C7_counterexample :
    saveEntry sampleClientUser 100 false true = none ∧
    saveEntry sampleClientUser 100 true false = none := by
  exact ⟨rfl, rfl⟩

/-- C7, amended: the never-roll-back optimistic award is specific to
meditation.  Meditation applies `floor(2 * durationMinutes)` to the
in-memory profile whether or not the remote recording succeeds (the
`catch` branch awards the same points), drawing applies its fixed 15
points with no remote call at all, but journaling aborts without any award
when the remote journal save fails or the activity-recording call throws,
and awards only on full success. -/
theorem C7_amended_failure_policy :
    (∀ user durationMinutes remoteOk,
        (completeMeditation user durationMinutes remoteOk).rewardPoints
          = user.rewardPoints + (meditationPoints durationMinutes : Int)) ∧
    (∀ user, (saveDrawing user).rewardPoints = user.rewardPoints + 15) ∧
    (∀ user wordCount,
        saveEntry user wordCount false true = none ∧
        saveEntry user wordCount true false = none ∧
        saveEntry user wordCount true true
          = some { user with
              rewardPoints := user.rewardPoints + (journalingPoints wordCount : Int) }) := by
  refine ⟨?_, ?_, ?_⟩
  · intro u d ok
    cases ok <;> simp [completeMeditation]
  · intro u
    simp [saveDrawing, drawingPoints]
  · intro u wc
    exact ⟨rfl, rfl, rfl⟩

/-- C3, counterexample: an entry whose timestamp lies exactly at the
30-day boundary is discarded by the write, not kept.  One entry is stored
at instant 0; a write arrives at instant `30 * msPerDay`, so the stored
entry is exactly 30 days old; the filter `timestamp > now - 30 days` is
strict and drops it. -/
theorem C3_counterexample :
    pruneStressLevels
        (appendStressEntry (some [{ level := 5, date := "day0", timestamp := 0 }])
          4 none "day30" (30 * msPerDay)) (30 * msPerDay)
      = [{ level := 4, date := "day30", timestamp := 30 * msPerDay }] ∧
    { level := 5, date := "day0", timestamp := 0 } ∉
      pruneStressLevels
        (appendStressEntry (some [{ level := 5, date := "day0", timestamp := 0 }])
          4 none "day30" (30 * msPerDay)) (30 * msPerDay) := by
  refine ⟨by decide, by decide⟩

/-- C3, amended: after every stress-level write the kept entries are
exactly those whose timestamp is *strictly* newer than 30 days before the
current instant — an entry exactly at the 30-day boundary is discarded,
not kept; the entry appended by that same write is itself never pruned by
it; and the sequence length increases by exactly 1 before pruning. -/
theorem C3_amended_retention (levels : Option (List StressEntry)) (level : Int)
    (dateParam : Option String) (today : String) (now : Int) :
    (appendStressEntry levels level dateParam today now).length
      = (jsOrNil levels).length + 1 ∧
    (∀ e ∈ pruneStressLevels (appendStressEntry levels level dateParam today now) now,
        now - 30 * msPerDay < e.timestamp) ∧
    (∀ e ∈ appendStressEntry levels level dateParam today now,
        now - 30 * msPerDay < e.timestamp →
          e ∈ pruneStressLevels (appendStressEntry levels level dateParam today now) now) ∧
    { level := level, date := jsOrStr dateParam today, timestamp := now }
      ∈ pruneStressLevels (appendStressEntry levels level dateParam today now) now := by
  refine ⟨by simp [appendStressEntry], ?_, ?_, ?_⟩
  · intro e he
    simp only [pruneStressLevels, List.mem_filter, decide_eq_true_eq] at he
    exact he.2
  · intro e he h
    simp only [pruneStressLevels, List.mem_filter, decide_eq_true_eq]
    exact ⟨he, h⟩
  · simp only [pruneStressLevels, List.mem_filter, decide_eq_true_eq]
    refine ⟨by simp [appendStressEntry], ?_⟩
    simp only [msPerDay]
    omega

/-- C3, witness for the amended theorem: a write at instant 0 onto an
empty ledger yields one appended entry, and that entry survives its own
write's pruning. -/
theorem C3_amended_witness :
    (appendStressEntry (some []) 5 none "t" 0).length
      = (jsOrNil (some [])).length + 1 ∧
    { level := 5, date := jsOrStr none "t", timestamp := 0 }
      ∈ pruneStressLevels (appendStressEntry (some []) 5 none "t" 0) 0 :=
  ⟨(C3_amended_retention (some []) 5 none "t" 0).1,
   (C3_amended_retention (some []) 5 none "t" 0).2.2.2⟩

/-- C6: on the in-scope operations, `rewardPoints` stays a non-negative
integer and never decreases.  The activity post applies exactly one
non-negative delta (`serverPointsEarned ty`) exactly once to the owning
profile; the stress-level write leaves `rewardPoints` untouched; the
client meditation flow only ever adds a non-negative amount. -/
theorem C6_reward_points_invariants (st : ServerState) (userId ty : String)
    (now : Int) (userData : UserData) (level : Int) (dateParam : Option String)
    (today : String)
    (h : kvGet st.users ("user:" ++ userId) = some userData)
    (hnn : 0 ≤ jsOrZero userData.rewardPoints) :
    0 ≤ serverPointsEarned ty ∧
    kvGet (postActivity st userId ty now).1.users ("user:" ++ userId)
      = some { userData with
          rewardPoints := some (jsOrZero userData.rewardPoints + serverPointsEarned ty) } ∧
    jsOrZero userData.rewardPoints
      ≤ jsOrZero userData.rewardPoints + serverPointsEarned ty ∧
    0 ≤ jsOrZero userData.rewardPoints + serverPointsEarned ty ∧
    (kvGet (postStressLevel st userId level dateParam today now).1.users
        ("user:" ++ userId)).map (fun u => u.rewardPoints)
      = some userData.rewardPoints ∧
    (∀ user durationMinutes remoteOk,
        user.rewardPoints ≤ (completeMeditation user durationMinutes remoteOk).rewardPoints) := by
  have h0 : 0 ≤ serverPointsEarned ty := by
    simp only [serverPointsEarned]
    split_ifs <;> norm_num
  refine ⟨h0, postActivity_store_user st userId ty now userData h,
    by linarith, by linarith, ?_, ?_⟩
  · rw [postStressLevel_store_user st userId level dateParam today now userData h]
    rfl
  · intro u d ok
    cases ok <;> simp [completeMeditation]

/-- C6, witness at the sample store: a meditation post moves the profile
from 40 to 50 (delta 10 ≥ 0, applied once), the stress write keeps 40, the
client flow never decreases points. -/
theorem C6_witness :
    0 ≤ serverPointsEarned "meditation" ∧
    kvGet (postActivity sampleStore "u1" "meditation" 0).1.users ("user:" ++ "u1")
      = some { sampleUser with
          rewardPoints := some (jsOrZero sampleUser.rewardPoints + serverPointsEarned "meditation") } ∧
    jsOrZero sampleUser.rewardPoints
      ≤ jsOrZero sampleUser.rewardPoints + serverPointsEarned "meditation" ∧
    0 ≤ jsOrZero sampleUser.rewardPoints + serverPointsEarned "meditation" ∧
    (kvGet (postStressLevel sampleStore "u1" 4 none "day" 0).1.users
        ("user:" ++ "u1")).map (fun u => u.rewardPoints)
      = some sampleUser.rewardPoints ∧
    (∀ user durationMinutes remoteOk,
        user.rewardPoints ≤ (completeMeditation user durationMinutes remoteOk).rewardPoints) :=
  C6_reward_points_invariants sampleStore "u1" "meditation" 0 sampleUser 4
    none "day" rfl (by decide)

/-- Closed form of the tier lookup on non-negative point totals: the four
ranges are tried in order, so the first range whose upper bound is not yet
passed wins. -/
theorem currentTier_eq (p : Int) (hp : 0 ≤ p) :
    currentTier p =
      if p ≤ 49 then { min := 0, max := some 49, tier := "Bronze" }
      else if p ≤ 149 then { min := 50, max := some 149, tier := "Silver" }
      else if p ≤ 299 then { min := 150, max := some 299, tier := "Gold" }
      else { min := 300, max := none, tier := "Diamond" } := by
  by_cases h1 : p ≤ 49
  · simp [currentTier, rewardTiers, List.find?, leMax, hp, h1]
  · by_cases h2 : p ≤ 149
    · have h50 : (50 : Int) ≤ p := by omega
      simp [currentTier, rewardTiers, List.find?, leMax, hp, h1, h2, h50]
    · by_cases h3 : p ≤ 299
      · have h150 : (150 : Int) ≤ p := by omega
        simp [currentTier, rewardTiers, List.find?, leMax, hp, h1, h2, h3, h150]
      · have h300 : (300 : Int) ≤ p := by omega
        simp [currentTier, rewardTiers, List.find?, leMax, hp, h1, h2, h3, h300]

/-- C5: on every non-negative point total `p` the tier lookup returns one
of the four tiers with `min ≤ p` and `p ≤ max` (`max` absent meaning
`Infinity`), that tier is the only one of the four containing `p`, the six
boundary totals resolve as the spec lists them, and below the top tier the
displayed points-to-next-tier is `max - p`. -/
theorem C5_tier_resolution (p : Int) (hp : 0 ≤ p) :
    currentTier p ∈ rewardTiers ∧
    (currentTier p).min ≤ p ∧
    leMax p (currentTier p).max = true ∧
    (∀ t ∈ rewardTiers, t.min ≤ p → leMax p t.max = true → t = currentTier p) ∧
    (currentTier 49).tier = "Bronze" ∧
    (currentTier 50).tier = "Silver" ∧
    (currentTier 149).tier = "Silver" ∧
    (currentTier 150).tier = "Gold" ∧
    (currentTier 299).tier = "Gold" ∧
    (currentTier 300).tier = "Diamond" ∧
    (∀ m, (currentTier p).max = some m → pointsToNextTierDisplay p = some (m - p)) := by
  rw [currentTier_eq p hp]
  refine ⟨?_, ?_, ?_, ?_, by decide, by decide, by decide, by decide, by decide,
    by decide, ?_⟩
  · split_ifs <;> simp [rewardTiers]
  · split_ifs <;> dsimp only <;> omega
  · split_ifs <;> simp_all [leMax]
  · intro t ht hmin hmax
    simp only [rewardTiers, List.mem_cons, List.mem_singleton] at ht
    rcases ht with rfl | rfl | rfl | rfl | h
    · simp only [leMax, decide_eq_true_eq] at hmax
      simp only at hmin
      split_ifs <;> first | rfl | omega
    · simp only [leMax, decide_eq_true_eq] at hmax
      simp only at hmin
      split_ifs <;> first | rfl | omega
    · simp only [leMax, decide_eq_true_eq] at hmax
      simp only at hmin
      split_ifs <;> first | rfl | omega
    · simp only at hmin
      split_ifs <;> first | rfl | omega
    · cases h
  · intro m hm
    rw [pointsToNextTierDisplay, currentTier_eq p hp]
    split_ifs at hm ⊢ <;> simp_all

/-- C5, witness at the end-to-end scenario's total of 60 points: Silver,
containing 60, uniquely so, and 89 points to the next tier. -/
theorem C5_witness :
    currentTier 60 ∈ rewardTiers ∧
    (currentTier 60).min ≤ 60 ∧
    leMax 60 (currentTier 60).max = true ∧
    (∀ t ∈ rewardTiers, t.min ≤ 60 → leMax 60 t.max = true → t = currentTier 60) ∧
    (currentTier 49).tier = "Bronze" ∧
    (currentTier 50).tier = "Silver" ∧
    (currentTier 149).tier = "Silver" ∧
    (currentTier 150).tier = "Gold" ∧
    (currentTier 299).tier = "Gold" ∧
    (currentTier 300).tier = "Diamond" ∧
    (∀ m, (currentTier 60).max = some m → pointsToNextTierDisplay 60 = some (m - 60)) :=
  C5_tier_resolution 60 (by decide)

/-- C10: an authorized profile update whose stored profile exists stores
back the spread-merge of the old object, the updates and a fresh
`updatedAt`; field-wise, every field not named in the updates object and
different from `updatedAt` keeps its previous value, every field named in
the updates object (other than `updatedAt`) takes the submitted value, and
`updatedAt` takes the fresh instant. -/
theorem C10_put_user_frame {α : Type} (store : List (String × JsObj α))
    (userId : String) (updates existingData : JsObj α) (nowIso : α)
    (hex : kvGet store ("user:" ++ userId) = some existingData) :
    (putUser store userId updates nowIso).2 = true ∧
    kvGet (putUser store userId updates nowIso).1 ("user:" ++ userId)
      = some (putUserMerge existingData updates nowIso) ∧
    (∀ k, updates k = none → k ≠ "updatedAt" →
        putUserMerge existingData updates nowIso k = existingData k) ∧
    (∀ k v, updates k = some v → k ≠ "updatedAt" →
        putUserMerge existingData updates nowIso k = some v) ∧
    putUserMerge existingData updates nowIso "updatedAt" = some nowIso := by
  refine ⟨?_, ?_, ?_, ?_, ?_⟩
  · simp [putUser, hex]
  · simp [putUser, hex, kvGet_kvSet_self]
  · intro k hk hne
    simp [putUserMerge, hk, hne]
  · intro k v hk hne
    simp [putUserMerge, hk, hne]
  · simp [putUserMerge]

/-- A sample stored profile object for the profile-update endpoint, with
integer-valued fields. -/
def sampleObj : JsObj Int := fun k =>
  if k = "petNameLen" then some 2
  else if k = "rewardPoints" then some 40
  else none

/-- A sample updates object naming only `rewardPoints`. -/
def sampleUpdates : JsObj Int := fun k =>
  if k = "rewardPoints" then some 60 else none

/-- A sample object store holding only `sampleObj`. -/
def sampleObjStore : List (String × JsObj Int) := [("user:u1", sampleObj)]

/-- C10, witness: updating only `rewardPoints` stores the merged object,
keeps `petNameLen`, sets `rewardPoints` to 60 and stamps `updatedAt`. -/
theorem C10_witness :
    kvGet (putUser sampleObjStore "u1" sampleUpdates 99).1 ("user:" ++ "u1")
      = some (putUserMerge sampleObj sampleUpdates 99) ∧
    putUserMerge sampleObj sampleUpdates 99 "petNameLen" = sampleObj "petNameLen" ∧
    putUserMerge sampleObj sampleUpdates 99 "rewardPoints" = some 60 ∧
    putUserMerge sampleObj sampleUpdates 99 "updatedAt" = some 99 :=
  have ht := C10_put_user_frame sampleObjStore "u1" sampleUpdates sampleObj 99 rfl
  ⟨ht.2.1, ht.2.2.1 "petNameLen" rfl (by decide),
   ht.2.2.2.1 "rewardPoints" 60 rfl (by decide), ht.2.2.2.2⟩

end Nimathi
